import Mathlib

/-!
Shallow embedding of the kakapo-backend quiz server (the operative source
file is the one that contains the quiz-cancel branch of the chat router).
All state-mutating JavaScript functions are modelled by explicit passing of
the in-memory session map; the fallible external calls (question generation,
intent relay) are modelled as explicit parameters describing their outcome.
-/

namespace Kakapo

/-- Options object of a question: the JS shape `{ A, B, C, D }`. -/
structure QOptions where
  A : String
  B : String
  C : String
  D : String
deriving Repr, DecidableEq

/-- Question record, the JS shape
`{ question, options, correct_answer, explanation }`. -/
structure Question where
  question : String
  options : QOptions
  correct_answer : String
  explanation : String
deriving Repr, DecidableEq

/-- Record pushed onto `quizData.answers` for every graded answer:
`{ question, userAnswer, correctAnswer, isCorrect }`. -/
structure AnswerRecord where
  question : String
  userAnswer : String
  correctAnswer : String
  isCorrect : Bool
deriving Repr, DecidableEq

/-- Per-session quiz state stored in `quizSessions[sessionId]`. -/
structure QuizSession where
  active : Bool
  questions : List Question
  currentQuestion : Nat
  score : Nat
  answers : List AnswerRecord
deriving Repr, DecidableEq

/-- Reply JSON payload `{ message, image_url, intent }`. -/
structure Reply where
  message : String
  image_url : Option String
  intent : String
deriving Repr, DecidableEq

/-- The global mutable object `quizSessions`, modelled as an association
list from session id to session state. -/
abbrev SessionMap := List (String × QuizSession)

/-- Lookup `quizSessions[sessionId]`; `none` models JS `undefined`. -/
def getSession : SessionMap → String → Option QuizSession
  | [], _ => none
  | (k, v) :: rest, sid => if k = sid then some v else getSession rest sid

/-- The statement `delete quizSessions[sessionId]`. -/
def delSession : SessionMap → String → SessionMap
  | [], _ => []
  | (k, v) :: rest, sid =>
      if k = sid then delSession rest sid else (k, v) :: delSession rest sid

/-- The assignment `quizSessions[sessionId] = s` (replaces any binding). -/
def setSession (m : SessionMap) (sid : String) (s : QuizSession) : SessionMap :=
  (sid, s) :: delSession m sid

/-- The JS helper `isQuizActive(sessionId)`:
`quizSessions[sessionId] && quizSessions[sessionId].active`. -/
def isQuizActive (m : SessionMap) (sid : String) : Bool :=
  match getSession m sid with
  | some s => s.active
  | none => false

/-- The hard-coded fallback question set of `getFallbackQuestions()`. -/
def getFallbackQuestions : List Question :=
  [ ⟨"What is the Kakapo?",
      ⟨"A type of owl", "A flightless parrot", "A bat species", "A lizard"⟩,
      "B", "The Kakapo is the world\x27s only flightless parrot, native to New Zealand."⟩,
    ⟨"Where are Kakapos found in the wild?",
      ⟨"Australia", "New Zealand", "Hawaii", "Madagascar"⟩,
      "B", "Kakapos are endemic to New Zealand."⟩,
    ⟨"What do Kakapos primarily eat?",
      ⟨"Fish", "Small mammals", "Plants, fruits, and seeds", "Insects only"⟩,
      "C", "Kakapos are herbivores."⟩,
    ⟨"How do male Kakapos attract females?",
      ⟨"Building nests", "Booming sounds", "Colorful displays", "Dancing"⟩,
      "B", "Males create bowl-shaped depressions and emit booming calls."⟩,
    ⟨"What is the conservation status of Kakapos?",
      ⟨"Least Concern", "Endangered", "Critically Endangered", "Extinct"⟩,
      "C", "Kakapos are Critically Endangered."⟩,
    ⟨"When are Kakapos most active?",
      ⟨"Day", "Dawn", "Night", "Dusk"⟩,
      "C", "Kakapos are nocturnal."⟩,
    ⟨"Main threat to Kakapos?",
      ⟨"Climate change", "Introduced predators", "Disease", "Habitat loss"⟩,
      "B", "Introduced predators are the biggest threat."⟩,
    ⟨"How much does an adult Kakapo weigh?",
      ⟨"500g", "1kg", "2-4kg", "10kg"⟩,
      "C", "Adults weigh 2-4 kg."⟩,
    ⟨"How long can Kakapos live?",
      ⟨"10-20 years", "30-40 years", "60-90 years", "100+ years"⟩,
      "C", "Kakapos can live 60-90 years."⟩,
    ⟨"Why can\x27t Kakapos fly?",
      ⟨"Too heavy", "Evolved without predators", "Wings damaged", "Prefer walking"⟩,
      "B", "They evolved without natural predators."⟩ ]

/-- Outcome of `generateQuizQuestions()`. The external generative call
either yields a parsed JSON array of question records (`some qs`) or fails
in any way (network error, malformed JSON, parse result not an array),
modelled as `none`. The JS function throws on a wrong element count and
catches every failure, substituting the fallback set. -/
def generateQuizQuestions (source : Option (List Question)) : List Question :=
  match source with
  | some qs => if qs.length = 10 then qs else getFallbackQuestions
  | none => getFallbackQuestions

/-- The template literal of `formatQuizQuestion(questionData, questionNum, total)`. -/
def formatQuizQuestion (q : Question) (questionNum total : Nat) : String :=
  "🎯 **Question " ++ toString questionNum ++ "/" ++ toString total ++ "**\n\n" ++
  q.question ++ "\n\n**A)** " ++ q.options.A ++ "\n**B)** " ++ q.options.B ++
  "\n**C)** " ++ q.options.C ++ "\n**D)** " ++ q.options.D ++
  "\n\nReply with A, B, C, or D! 🦜"

/-- The async function `handleQuizStart(sessionId)`: stores a fresh session
and returns the welcome reply. `questions[0]` always exists since both the
generated and the fallback set have 10 elements; the empty-list branch
mirrors the JS value `undefined` interpolating into the template and is
unreachable. -/
def handleQuizStart (sid : String) (source : Option (List Question))
    (m : SessionMap) : Reply × SessionMap :=
  let questions := generateQuizQuestions source
  let m2 := setSession m sid ⟨true, questions, 0, 0, []⟩
  let firstQuestion :=
    match questions with
    | [] => ""
    | q :: _ => formatQuizQuestion q 1 questions.length
  (⟨"🎉 **Welcome to the Kakapo Quiz!** 🦜\n\nTest your knowledge! I\x27ll ask you 10 questions.\n\n"
      ++ firstQuestion,
    none, "quiz.start"⟩, m2)

/-- `Math.round(num / den)` for non-negative operands:
`floor(num / den + 1 / 2)`. Only applied with `den > 0` (the question count
is always 10); in the program the quotient `score / total * 100` is exact,
so no floating-point rounding error arises. -/
def jsRound (num den : Nat) : Nat :=
  (2 * num + den) / (2 * den)

/-- The expression `Math.round((score / total) * 100)` of `handleQuizComplete`. -/
def quizPercentage (score total : Nat) : Nat :=
  jsRound (score * 100) total

/-- The `if`-chain of `handleQuizComplete` selecting `emoji` and `msg`. -/
def completionTier (pct : Nat) : String × String :=
  if 80 ≤ pct then ("🌟", "Amazing! You\x27re a Kakapo expert!")
  else if 60 ≤ pct then ("💚", "Great job!")
  else if 40 ≤ pct then ("🌿", "Good effort!")
  else ("🦜", "Nice try!")

/-- `handleQuizComplete(sessionId)`: reads `quizSessions[sessionId]` without
any existence guard (`quizData.score` on a missing session throws a
TypeError in JS, modelled as the `Except.error` branch), computes the
percentage and tier, deletes the session and returns the summary reply. -/
def handleQuizComplete (sid : String) (m : SessionMap) :
    Except String Reply × SessionMap :=
  match getSession m sid with
  | none => (.error "TypeError: cannot read properties of undefined", m)
  | some quizData =>
      let score := quizData.score
      let total := quizData.questions.length
      let pct := quizPercentage score total
      let t := completionTier pct
      (.ok ⟨"🎉 **Quiz Complete!** 🦜\n\n" ++ t.1 ++ " You scored **" ++
              toString score ++ "/" ++ toString total ++ "** (" ++
              toString pct ++ "%)\n\n" ++ t.2,
            none, "quiz.complete"⟩,
       delSession m sid)

/-- Valid answer letters of the regex `/^[ABCD]$/`. -/
def validLetters : List String := ["A", "B", "C", "D"]

/-- `s.toUpperCase()`, restricted to the per-character ASCII mapping (the
program only compares against the ASCII letters A-D). -/
def jsToUpper (s : String) : String := String.mk (s.toList.map Char.toUpper)

/-- `s.toLowerCase()`, restricted to the per-character ASCII mapping (the
program only compares against ASCII keywords). -/
def jsToLower (s : String) : String := String.mk (s.toList.map Char.toLower)

/-- `s.trim()`: strips leading and trailing whitespace (space, tab,
carriage return, newline — the characters relevant to chat input). -/
def jsTrim (s : String) : String :=
  String.mk
    (((s.toList.dropWhile Char.isWhitespace).reverse.dropWhile
        Char.isWhitespace).reverse)

/-- `message.trim().toUpperCase().match(/^[ABCD]$/)`: `some` of the
normalized letter when the trimmed, upper-cased message is exactly one of
A, B, C, D; otherwise `none`. -/
def normalizeAnswer (message : String) : Option String :=
  let t := jsToUpper (jsTrim message)
  if validLetters.contains t then some t else none

/-- The corrective reply of `handleQuizAnswer` for an unparsable answer. -/
def invalidAnswerReply : Reply :=
  ⟨"❌ Please answer with A, B, C, or D only!", none, "quiz.invalid"⟩

/-- The `feedback` template of `handleQuizAnswer`. -/
def answerFeedback (isCorrect : Bool) (q : Question) : String :=
  if isCorrect then "✅ **Correct!** " ++ q.explanation ++ "\n\n"
  else "❌ **Incorrect.** The answer was **" ++ q.correct_answer ++ "**. " ++
       q.explanation ++ "\n\n"

/-- `handleQuizAnswer(message, sessionId)`. Returns `none` when the router
should fall through (no session or inactive). The indexing
`quizData.questions[quizData.currentQuestion]` has no bounds guard; an
out-of-range index yields JS `undefined` and the subsequent field access
throws, modelled as the `Except.error` branch. The next-question lookup
after the increment is guarded by the length check, so its `none` branch is
unreachable. -/
def handleQuizAnswer (message sid : String) (m : SessionMap) :
    Option (Except String Reply) × SessionMap :=
  match getSession m sid with
  | none => (none, m)
  | some quizData =>
      if quizData.active then
        match normalizeAnswer message with
        | none => (some (.ok invalidAnswerReply), m)
        | some userAnswer =>
            match quizData.questions.get? quizData.currentQuestion with
            | none => (some (.error "TypeError: cannot read properties of undefined"), m)
            | some currentQ =>
                let isCorrect := userAnswer == currentQ.correct_answer
                let score2 := if isCorrect then quizData.score + 1 else quizData.score
                let answers2 := quizData.answers ++
                  [⟨currentQ.question, userAnswer, currentQ.correct_answer, isCorrect⟩]
                let idx2 := quizData.currentQuestion + 1
                let quizData2 : QuizSession :=
                  { quizData with score := score2, answers := answers2, currentQuestion := idx2 }
                let m2 := setSession m sid quizData2
                if quizData2.questions.length ≤ idx2 then
                  let r := handleQuizComplete sid m2
                  (some r.1, r.2)
                else
                  match quizData2.questions.get? idx2 with
                  | none => (some (.error "unreachable: guarded by the length check"), m2)
                  | some nextQ =>
                      (some (.ok ⟨answerFeedback isCorrect currentQ ++
                                    formatQuizQuestion nextQ (idx2 + 1)
                                      quizData2.questions.length,
                                  none, "quiz.answer"⟩), m2)
      else (none, m)

/-- `handleQuizCancel(sessionId)`: deletes the session when present
(regardless of progress) and always returns the same acknowledgement. -/
def handleQuizCancel (sid : String) (m : SessionMap) : Reply × SessionMap :=
  let m2 :=
    match getSession m sid with
    | some _ => delSession m sid
    | none => m
  (⟨"Quiz cancelled.", none, "quiz.cancelled"⟩, m2)

/-- One element of `result.fulfillmentMessages`: the three optional image
carriers inspected by the router (`msg.image?.imageUri`,
`msg.payload?.fields?.image_url` with its `stringValue`, and
`msg.card?.imageUri`). -/
structure Fragment where
  imageUri : Option String
  payloadImageUrl : Option String
  cardImageUri : Option String
deriving Repr, DecidableEq

/-- The Dialogflow `detectIntent` response consumed by the router: the
fulfillment text, the (possibly empty) fulfillment-message list and the
intent display name. -/
structure RelayResult where
  fulfillmentText : String
  fulfillmentMessages : List Fragment
  intentDisplayName : String
deriving Repr, DecidableEq

/-- The image-extraction loop of the chat route: iterates over the
fragments, and inside each fragment runs three independent `if` statements
(image, payload, card), each overwriting `imageUrl` when its field is
present. -/
def extractImageUrl (frags : List Fragment) : Option String :=
  frags.foldl
    (fun acc msg =>
      let a1 := match msg.imageUri with | some u => some u | none => acc
      let a2 := match msg.payloadImageUrl with | some u => some u | none => a1
      match msg.cardImageUri with | some u => some u | none => a2)
    none

/-- Modelled from the spec (sentence on rich-reply fragments): the variant
of the extraction in which, per fragment, the FIRST matching field wins
(inline image, then payload `image_url`, then card image). Declared only to
be compared with `extractImageUrl`, the embedding of the code. -/
def extractImageUrlSpecFirstMatch (frags : List Fragment) : Option String :=
  frags.foldl
    (fun acc msg =>
      match msg.imageUri with
      | some u => some u
      | none =>
          match msg.payloadImageUrl with
          | some u => some u
          | none =>
              match msg.cardImageUri with
              | some u => some u
              | none => acc)
    none

/-- The `quizKeywords` array of the chat route. -/
def quizKeywords : List String := ["quiz", "test", "take quiz", "start quiz", "quiz mode"]

/-- Substring test: `hay.includes(needle)` on the underlying characters. -/
def containsSub : List Char → List Char → Bool
  | [], needle => needle.isEmpty
  | h :: t, needle => needle.isPrefixOf (h :: t) || containsSub t needle

/-- `s.includes(k)` for strings. -/
def strIncludes (s k : String) : Bool :=
  containsSub s.toList k.toList

/-- `quizKeywords.some(k => message.toLowerCase().includes(k))`. -/
def isQuizRequest (message : String) : Bool :=
  quizKeywords.any (fun k => strIncludes (jsToLower message) k)

/-- The Dialogflow branch of the chat route adapting the relay response. -/
def relayReply (relay : RelayResult) : Reply :=
  ⟨relay.fulfillmentText, extractImageUrl relay.fulfillmentMessages,
   relay.intentDisplayName⟩

/-- The dispatch logic of `app.post(chat-route)`: cancel keyword first
(exact match of `message.toLowerCase()`, no trim), then quiz start (keyword
containment and no active quiz), then an active quiz routes to
`handleQuizAnswer` (falling through to the relay when it returns `null`),
otherwise the intent relay. The relay outcome is passed as a parameter;
its failure (the catch-all 500 branch) is outside the dispatch contract. -/
def handleChat (message sid : String) (source : Option (List Question))
    (relay : RelayResult) (m : SessionMap) : Except String Reply × SessionMap :=
  if jsToLower message == "cancel_quiz" then
    if isQuizActive m sid then
      let r := handleQuizCancel sid m
      (.ok r.1, r.2)
    else
      (.ok ⟨"No active quiz to cancel.", none, "quiz.no_active"⟩, m)
  else if isQuizRequest message && !(isQuizActive m sid) then
    let r := handleQuizStart sid source m
    (.ok r.1, r.2)
  else if isQuizActive m sid then
    match handleQuizAnswer message sid m with
    | (some r, m2) => (r, m2)
    | (none, m2) => (.ok (relayReply relay), m2)
  else
    (.ok (relayReply relay), m)

/-- The data-model invariant of a stored session: answers track the index,
the score never exceeds the index, the index stays within the 10 questions. -/
def sessionInv (s : QuizSession) : Prop :=
  s.answers.length = s.currentQuestion ∧
  s.score ≤ s.currentQuestion ∧
  s.currentQuestion ≤ 10 ∧
  s.questions.length = 10

/-- Every session present in the map satisfies the session invariant. -/
def mapInv (m : SessionMap) : Prop :=
  ∀ sid s, getSession m sid = some s → sessionInv s

/-- Concrete sample question used to instantiate theorems with hypotheses. -/
def sampleQuestion : Question :=
  ⟨"Q?", ⟨"a1", "a2", "a3", "a4"⟩, "A", "because"⟩

/-- Concrete list of 10 sample questions. -/
def sampleQuestions : List Question := List.replicate 10 sampleQuestion

/-- Concrete fresh session over the sample questions. -/
def sampleSession : QuizSession := ⟨true, sampleQuestions, 0, 0, []⟩

/-- Concrete session that has answered 9 of the 10 sample questions. -/
def sampleSession9 : QuizSession :=
  ⟨true, sampleQuestions, 9, 5, List.replicate 9 ⟨"Q?", "A", "A", true⟩⟩

/-! Helper lemmas about the session map. -/

theorem getSession_delSession (m : SessionMap) (sid sid' : String) :
    getSession (delSession m sid) sid' =
      if sid' = sid then none else getSession m sid' := by
  induction m with
  | nil => simp [getSession, delSession]
  | cons p rest ih =>
      obtain ⟨k, v⟩ := p
      by_cases hk : k = sid
      · subst hk
        by_cases hq : sid' = k
        · subst hq; simpa [delSession, getSession] using ih
        · simp [delSession, getSession, hq, Ne.symm hq, ih]
      · by_cases hq : k = sid'
        · subst hq
          simp [delSession, getSession, hk]
        · simp [delSession, getSession, hk, hq, ih]

theorem getSession_setSession (m : SessionMap) (sid sid' : String)
    (s : QuizSession) :
    getSession (setSession m sid s) sid' =
      if sid' = sid then some s else getSession m sid' := by
  unfold setSession
  by_cases hq : sid = sid'
  · subst hq; simp [getSession]
  · simp [getSession, hq, getSession_delSession, Ne.symm hq]

theorem getSession_setSession_self (m : SessionMap) (sid : String)
    (s : QuizSession) :
    getSession (setSession m sid s) sid = some s := by
  simp [getSession_setSession]

theorem delSession_idem (m : SessionMap) (sid : String) :
    delSession (delSession m sid) sid = delSession m sid := by
  induction m with
  | nil => simp [delSession]
  | cons p rest ih =>
      obtain ⟨k, v⟩ := p
      by_cases hk : k = sid
      · simp [delSession, hk, ih]
      · simp [delSession, hk, ih]

theorem delSession_setSession_self (m : SessionMap) (sid : String)
    (s : QuizSession) :
    delSession (setSession m sid s) sid = delSession m sid := by
  simp [setSession, delSession, delSession_idem]

theorem delSession_of_getSession_none (m : SessionMap) (sid : String)
    (h : getSession m sid = none) : delSession m sid = m := by
  induction m with
  | nil => simp [delSession]
  | cons p rest ih =>
      obtain ⟨k, v⟩ := p
      by_cases hk : k = sid
      · simp [getSession, hk] at h
      · simp [getSession, hk] at h
        simp [delSession, hk, ih h]

theorem isQuizActive_iff (m : SessionMap) (sid : String) :
    isQuizActive m sid = true ↔
      ∃ s, getSession m sid = some s ∧ s.active = true := by
  unfold isQuizActive
  cases h : getSession m sid with
  | none => simp
  | some s => simp

/-! Helper lemmas about the quiz operations. -/

theorem getFallbackQuestions_length : getFallbackQuestions.length = 10 := rfl

theorem generateQuizQuestions_length (source : Option (List Question)) :
    (generateQuizQuestions source).length = 10 := by
  unfold generateQuizQuestions
  cases source with
  | none => rfl
  | some qs =>
      by_cases h : qs.length = 10
      · simp [h]
      · simp [h, getFallbackQuestions_length]

/-- Unfolding of `handleQuizComplete` when the session exists. -/
theorem handleQuizComplete_eq_of_some (m : SessionMap) (sid : String)
    (s : QuizSession) (hs : getSession m sid = some s) :
    handleQuizComplete sid m =
      (.ok ⟨"🎉 **Quiz Complete!** 🦜\n\n" ++
              (completionTier (quizPercentage s.score s.questions.length)).1 ++
              " You scored **" ++ toString s.score ++ "/" ++
              toString s.questions.length ++ "** (" ++
              toString (quizPercentage s.score s.questions.length) ++
              "%)\n\n" ++
              (completionTier (quizPercentage s.score s.questions.length)).2,
            none, "quiz.complete"⟩,
       delSession m sid) := by
  unfold handleQuizComplete
  rw [hs]

/-- Unfolding of `handleQuizAnswer` under the hypotheses of a present,
active session, a message normalizing to the letter `L`, and an in-range
current question `q`. -/
theorem handleQuizAnswer_valid_eq (m : SessionMap) (sid message L : String)
    (s : QuizSession) (q : Question)
    (hs : getSession m sid = some s) (ha : s.active = true)
    (hn : normalizeAnswer message = some L)
    (hq : s.questions.get? s.currentQuestion = some q) :
    handleQuizAnswer message sid m =
      (let s2 : QuizSession :=
        { s with
            score := if L == q.correct_answer then s.score + 1 else s.score,
            answers := s.answers ++
              [⟨q.question, L, q.correct_answer, L == q.correct_answer⟩],
            currentQuestion := s.currentQuestion + 1 }
       let m2 := setSession m sid s2
       if s.questions.length ≤ s.currentQuestion + 1 then
         (some (handleQuizComplete sid m2).1, (handleQuizComplete sid m2).2)
       else
         match s.questions.get? (s.currentQuestion + 1) with
         | none => (some (.error "unreachable: guarded by the length check"), m2)
         | some nextQ =>
             (some (.ok ⟨answerFeedback (L == q.correct_answer) q ++
                           formatQuizQuestion nextQ (s.currentQuestion + 2)
                             s.questions.length,
                         none, "quiz.answer"⟩), m2)) := by
  unfold handleQuizAnswer
  rw [hs]
  simp only [ha, if_true, hn, hq]

/-- `handleQuizAnswer` returns `null` when no session exists. -/
theorem handleQuizAnswer_none_eq (m : SessionMap) (sid message : String)
    (hs : getSession m sid = none) :
    handleQuizAnswer message sid m = (none, m) := by
  unfold handleQuizAnswer; rw [hs]

/-- `handleQuizAnswer` returns `null` when the session is inactive. -/
theorem handleQuizAnswer_inactive_eq (m : SessionMap) (sid message : String)
    (s : QuizSession) (hs : getSession m sid = some s)
    (ha : s.active = false) :
    handleQuizAnswer message sid m = (none, m) := by
  unfold handleQuizAnswer; rw [hs]; simp [ha]

/-- `handleQuizAnswer` returns the corrective reply, leaving the map
unchanged, when the message does not normalize to a valid letter. -/
theorem handleQuizAnswer_invalid_eq (m : SessionMap) (sid message : String)
    (s : QuizSession) (hs : getSession m sid = some s)
    (ha : s.active = true) (hn : normalizeAnswer message = none) :
    handleQuizAnswer message sid m = (some (.ok invalidAnswerReply), m) := by
  unfold handleQuizAnswer; rw [hs]; simp only [ha, if_true, hn]

/-- `handleQuizAnswer` surfaces the unguarded out-of-range access, leaving
the map unchanged, when the current index is not a valid question index. -/
theorem handleQuizAnswer_outOfRange_eq (m : SessionMap) (sid message L : String)
    (s : QuizSession) (hs : getSession m sid = some s)
    (ha : s.active = true) (hn : normalizeAnswer message = some L)
    (hq : s.questions.get? s.currentQuestion = none) :
    handleQuizAnswer message sid m =
      (some (.error "TypeError: cannot read properties of undefined"), m) := by
  unfold handleQuizAnswer; rw [hs]; simp only [ha, if_true, hn, hq]

/-- `handleQuizComplete` on a missing session hits the unguarded read. -/
theorem handleQuizComplete_eq_of_none (m : SessionMap) (sid : String)
    (hs : getSession m sid = none) :
    handleQuizComplete sid m =
      (.error "TypeError: cannot read properties of undefined", m) := by
  unfold handleQuizComplete; rw [hs]

/-! Invariant-preservation lemmas. -/

theorem mapInv_setSession (m : SessionMap) (sid : String) (s : QuizSession)
    (hm : mapInv m) (hs : sessionInv s) : mapInv (setSession m sid s) := by
  intro sid' s' h
  rw [getSession_setSession] at h
  split at h
  · cases h; exact hs
  · exact hm _ _ h

theorem mapInv_delSession (m : SessionMap) (sid : String)
    (hm : mapInv m) : mapInv (delSession m sid) := by
  intro sid' s' h
  rw [getSession_delSession] at h
  split at h
  · cases h
  · exact hm _ _ h

/-- The session stored by a graded answer keeps the invariant. -/
theorem sessionInv_graded (s : QuizSession) (q : Question) (L : String)
    (hinv : sessionInv s)
    (hidx : s.currentQuestion < s.questions.length) :
    sessionInv
      { s with
          score := if L == q.correct_answer then s.score + 1 else s.score,
          answers := s.answers ++
            [⟨q.question, L, q.correct_answer, L == q.correct_answer⟩],
          currentQuestion := s.currentQuestion + 1 } := by
  obtain ⟨h1, h2, h3, h4⟩ := hinv
  refine ⟨?_, ?_, ?_, h4⟩
  · simp [h1]
  · by_cases hc : (L == q.correct_answer) = true
    · simp [hc]; omega
    · simp [hc] at *; omega
  · show s.currentQuestion + 1 ≤ 10
    omega

theorem lt_length_of_get?_some {α : Type} (l : List α) (n : Nat) (a : α)
    (h : l.get? n = some a) : n < l.length := by
  by_contra hc
  push_neg at hc
  rw [List.get?_eq_none.mpr hc] at h
  cases h

/-- Claim C1: after every quiz operation (start, answer with any message —
valid or invalid letter —, complete, cancel), every QuizSession still
present in the session map satisfies `answers.length = currentIndex`,
`score ≤ currentIndex`, `currentIndex ≤ 10` (it is a `Nat`, so
`0 ≤ currentIndex` holds by type), and `questions.length = 10`. -/
theorem quiz_ops_preserve_invariant
    (m : SessionMap) (sid message : String) (source : Option (List Question))
    (hm : mapInv m) :
    mapInv (handleQuizStart sid source m).2 ∧
    mapInv (handleQuizAnswer message sid m).2 ∧
    mapInv (handleQuizComplete sid m).2 ∧
    mapInv (handleQuizCancel sid m).2 := by
  refine ⟨?_, ?_, ?_, ?_⟩
  · -- start
    unfold handleQuizStart
    refine mapInv_setSession _ _ _ hm ?_
    exact ⟨rfl, Nat.le_refl 0, by show (0 : Nat) ≤ 10; omega,
           generateQuizQuestions_length source⟩
  · -- answer
    cases hgs : getSession m sid with
    | none => rw [handleQuizAnswer_none_eq m sid message hgs]; exact hm
    | some d =>
        cases hact : d.active with
        | false => rw [handleQuizAnswer_inactive_eq m sid message d hgs hact]; exact hm
        | true =>
            cases hna : normalizeAnswer message with
            | none => rw [handleQuizAnswer_invalid_eq m sid message d hgs hact hna]; exact hm
            | some L =>
                cases hq : d.questions.get? d.currentQuestion with
                | none =>
                    rw [handleQuizAnswer_outOfRange_eq m sid message L d hgs hact hna hq]
                    exact hm
                | some q =>
                    rw [handleQuizAnswer_valid_eq m sid message L d q hgs hact hna hq]
                    have hidx := lt_length_of_get?_some _ _ _ hq
                    have hs2 := sessionInv_graded d q L (hm sid d hgs) hidx
                    have hm2 := mapInv_setSession m sid _ hm hs2
                    dsimp only
                    by_cases hfin : d.questions.length ≤ d.currentQuestion + 1
                    · rw [if_pos hfin]
                      rw [handleQuizComplete_eq_of_some _ sid _
                            (getSession_setSession_self m sid _)]
                      exact mapInv_delSession _ _ hm2
                    · rw [if_neg hfin]
                      cases hnq : d.questions.get? (d.currentQuestion + 1) with
                      | none => exact hm2
                      | some nq => exact hm2
  · -- complete
    cases hgs : getSession m sid with
    | none => rw [handleQuizComplete_eq_of_none m sid hgs]; exact hm
    | some d =>
        rw [handleQuizComplete_eq_of_some m sid d hgs]
        exact mapInv_delSession _ _ hm
  · -- cancel
    unfold handleQuizCancel
    cases hgs : getSession m sid with
    | none => simpa using hm
    | some d =>
        dsimp only
        exact mapInv_delSession _ _ hm

/-- Witness for C1 at concrete inputs: the empty map satisfies the map
invariant, and so do the maps after each operation. -/
theorem quiz_ops_preserve_invariant_witness :
    mapInv (handleQuizStart "s" none []).2 ∧
    mapInv (handleQuizAnswer "a" "s" []).2 ∧
    mapInv (handleQuizComplete "s" []).2 ∧
    mapInv (handleQuizCancel "s" []).2 :=
  quiz_ops_preserve_invariant [] "s" "a" none (fun _ _ h => nomatch h)

/-- Claim C2: for an active session and a message that normalizes to the
letter `L`, `handleQuizAnswer` compares `L` with the current question's
correct letter, increments the score by exactly 1 iff they are equal,
appends exactly one answer record (question text, `L`, correct letter,
correctness flag), and increments the current index by exactly 1; the
updated session is stored (or, when the last question was just answered,
handed to completion). -/
theorem handleQuizAnswer_valid_letter
    (m : SessionMap) (sid message L : String) (s : QuizSession) (q : Question)
    (hs : getSession m sid = some s) (ha : s.active = true)
    (hn : normalizeAnswer message = some L)
    (hq : s.questions.get? s.currentQuestion = some q) :
    (handleQuizAnswer message sid m).2 =
      (if s.questions.length ≤ s.currentQuestion + 1 then delSession m sid
       else setSession m sid
         { s with
             score := if L == q.correct_answer then s.score + 1 else s.score,
             answers := s.answers ++
               [⟨q.question, L, q.correct_answer, L == q.correct_answer⟩],
             currentQuestion := s.currentQuestion + 1 }) ∧
    (handleQuizAnswer message sid m).1.isSome = true := by
  rw [handleQuizAnswer_valid_eq m sid message L s q hs ha hn hq]
  dsimp only
  by_cases hfin : s.questions.length ≤ s.currentQuestion + 1
  · rw [if_pos hfin, if_pos hfin]
    refine ⟨?_, by simp⟩
    rw [handleQuizComplete_eq_of_some _ sid _ (getSession_setSession_self m sid _)]
    exact delSession_setSession_self m sid _
  · rw [if_neg hfin, if_neg hfin]
    cases hnq : s.questions.get? (s.currentQuestion + 1) with
    | none => exact ⟨rfl, rfl⟩
    | some nq => exact ⟨rfl, rfl⟩

/-- Witness for C2: answering "a" on a fresh sample session stores the
graded session with score 1, one answer record, and index 1. -/
theorem handleQuizAnswer_valid_letter_witness :
    (handleQuizAnswer "a" "s" [("s", sampleSession)]).2 =
      (if sampleSession.questions.length ≤ sampleSession.currentQuestion + 1
       then delSession [("s", sampleSession)] "s"
       else setSession [("s", sampleSession)] "s"
         { sampleSession with
             score := if "A" == sampleQuestion.correct_answer
                      then sampleSession.score + 1 else sampleSession.score,
             answers := sampleSession.answers ++
               [⟨sampleQuestion.question, "A", sampleQuestion.correct_answer,
                 "A" == sampleQuestion.correct_answer⟩],
             currentQuestion := sampleSession.currentQuestion + 1 }) ∧
    (handleQuizAnswer "a" "s" [("s", sampleSession)]).1.isSome = true :=
  handleQuizAnswer_valid_letter [("s", sampleSession)] "s" "a" "A"
    sampleSession sampleQuestion (by simp [getSession]) rfl (by decide)
    (by decide)

/-- Claim C3: answering with a valid letter when `currentIndex = 9` (one
question remaining out of 10) delegates to completion within the same call:
the reply carries the quiz-complete intent, the session is gone from the
map in the returned state, and `isQuizActive` on that session id is false
afterwards. -/
theorem answer_tenth_question_completes
    (m : SessionMap) (sid message L : String) (s : QuizSession) (q : Question)
    (hs : getSession m sid = some s) (ha : s.active = true)
    (h9 : s.currentQuestion = 9) (hlen : s.questions.length = 10)
    (hn : normalizeAnswer message = some L)
    (hq : s.questions.get? s.currentQuestion = some q) :
    (∃ r : Reply, (handleQuizAnswer message sid m).1 = some (.ok r) ∧
        r.intent = "quiz.complete") ∧
    getSession (handleQuizAnswer message sid m).2 sid = none ∧
    isQuizActive (handleQuizAnswer message sid m).2 sid = false := by
  rw [handleQuizAnswer_valid_eq m sid message L s q hs ha hn hq]
  dsimp only
  have hfin : s.questions.length ≤ s.currentQuestion + 1 := by omega
  rw [if_pos hfin]
  rw [handleQuizComplete_eq_of_some _ sid _ (getSession_setSession_self m sid _)]
  dsimp only
  rw [delSession_setSession_self]
  refine ⟨⟨_, rfl, rfl⟩, ?_, ?_⟩
  · rw [getSession_delSession]; simp
  · unfold isQuizActive
    rw [getSession_delSession]
    simp

/-- Witness for C3: a session that has answered 9 of the 10 sample
questions completes when "b" is submitted. -/
theorem answer_tenth_question_completes_witness :
    (∃ r : Reply, (handleQuizAnswer "b" "s" [("s", sampleSession9)]).1 =
        some (.ok r) ∧ r.intent = "quiz.complete") ∧
    getSession (handleQuizAnswer "b" "s" [("s", sampleSession9)]).2 "s" = none ∧
    isQuizActive (handleQuizAnswer "b" "s" [("s", sampleSession9)]).2 "s" = false :=
  answer_tenth_question_completes [("s", sampleSession9)] "s" "b" "B"
    sampleSession9 sampleQuestion (by decide) rfl rfl (by decide) (by decide)
    (by decide)

/-- Claim C4: completion computes `percentage = round(100 * score / total)`
with `total = 10` and selects the tier by the fixed thresholds: at least 80
gives the expert tier, 60-79 the high tier, 40-59 the mid tier, below 40
the low tier; 10 correct yields 100 and the top tier, and 8 correct yields
80 and also the top tier (boundary inclusive). -/
theorem handleQuizComplete_percentage_tiers
    (m : SessionMap) (sid : String) (s : QuizSession)
    (hs : getSession m sid = some s) (hlen : s.questions.length = 10) :
    (handleQuizComplete sid m).1 =
      .ok ⟨"🎉 **Quiz Complete!** 🦜\n\n" ++
             (completionTier (quizPercentage s.score 10)).1 ++
             " You scored **" ++ toString s.score ++ "/" ++
             toString (10 : Nat) ++ "** (" ++
             toString (quizPercentage s.score 10) ++ "%)\n\n" ++
             (completionTier (quizPercentage s.score 10)).2,
           none, "quiz.complete"⟩ ∧
    (∀ sc : Nat, sc ≤ 10 → quizPercentage sc 10 = sc * 10) ∧
    (∀ p : Nat, 80 ≤ p →
       completionTier p = ("🌟", "Amazing! You\x27re a Kakapo expert!")) ∧
    (∀ p : Nat, 60 ≤ p → p < 80 → completionTier p = ("💚", "Great job!")) ∧
    (∀ p : Nat, 40 ≤ p → p < 60 → completionTier p = ("🌿", "Good effort!")) ∧
    (∀ p : Nat, p < 40 → completionTier p = ("🦜", "Nice try!")) ∧
    (quizPercentage 10 10 = 100 ∧
       completionTier 100 = ("🌟", "Amazing! You\x27re a Kakapo expert!")) ∧
    (quizPercentage 8 10 = 80 ∧
       completionTier 80 = ("🌟", "Amazing! You\x27re a Kakapo expert!")) := by
  refine ⟨?_, ?_, ?_, ?_, ?_, ?_, ⟨rfl, rfl⟩, ⟨rfl, rfl⟩⟩
  · rw [handleQuizComplete_eq_of_some m sid s hs, hlen]
  · intro sc hsc
    interval_cases sc <;> rfl
  · intro p hp
    unfold completionTier
    rw [if_pos hp]
  · intro p hp hp'
    unfold completionTier
    rw [if_neg (by omega), if_pos hp]
  · intro p hp hp'
    unfold completionTier
    rw [if_neg (by omega), if_neg (by omega), if_pos hp]
  · intro p hp
    unfold completionTier
    rw [if_neg (by omega), if_neg (by omega), if_neg (by omega)]

/-- Witness for C4 on the sample session (score 0 of 10). -/
theorem handleQuizComplete_percentage_tiers_witness :
    (handleQuizComplete "s" [("s", sampleSession)]).1 =
      .ok ⟨"🎉 **Quiz Complete!** 🦜\n\n" ++
             (completionTier (quizPercentage sampleSession.score 10)).1 ++
             " You scored **" ++ toString sampleSession.score ++ "/" ++
             toString (10 : Nat) ++ "** (" ++
             toString (quizPercentage sampleSession.score 10) ++ "%)\n\n" ++
             (completionTier (quizPercentage sampleSession.score 10)).2,
           none, "quiz.complete"⟩ ∧
    (∀ sc : Nat, sc ≤ 10 → quizPercentage sc 10 = sc * 10) ∧
    (∀ p : Nat, 80 ≤ p →
       completionTier p = ("🌟", "Amazing! You\x27re a Kakapo expert!")) ∧
    (∀ p : Nat, 60 ≤ p → p < 80 → completionTier p = ("💚", "Great job!")) ∧
    (∀ p : Nat, 40 ≤ p → p < 60 → completionTier p = ("🌿", "Good effort!")) ∧
    (∀ p : Nat, p < 40 → completionTier p = ("🦜", "Nice try!")) ∧
    (quizPercentage 10 10 = 100 ∧
       completionTier 100 = ("🌟", "Amazing! You\x27re a Kakapo expert!")) ∧
    (quizPercentage 8 10 = 80 ∧
       completionTier 80 = ("🌟", "Amazing! You\x27re a Kakapo expert!")) :=
  handleQuizComplete_percentage_tiers [("s", sampleSession)] "s" sampleSession
    (by decide) rfl

/-- Claim C5: for an active session, `handleQuizAnswer` parses the message
as a single case-insensitive letter A-D after trimming whitespace (so a
letter surrounded by whitespace is accepted); whenever the trimmed,
upper-cased message is not such a letter, it returns the corrective
invalid-answer reply and leaves the session map (hence `currentIndex`,
`score` and `answers`) unchanged. -/
theorem handleQuizAnswer_trim_validation
    (m : SessionMap) (sid message : String) (s : QuizSession)
    (hs : getSession m sid = some s) (ha : s.active = true) :
    (validLetters.contains (jsToUpper (jsTrim message)) = true →
       normalizeAnswer message = some (jsToUpper (jsTrim message)) ∧
       (handleQuizAnswer message sid m).1 ≠ some (.ok invalidAnswerReply)) ∧
    (validLetters.contains (jsToUpper (jsTrim message)) = false →
       handleQuizAnswer message sid m = (some (.ok invalidAnswerReply), m)) := by
  constructor
  · intro hval
    have hn : normalizeAnswer message = some (jsToUpper (jsTrim message)) := by
      unfold normalizeAnswer
      rw [if_pos hval]
    refine ⟨hn, ?_⟩
    cases hq : s.questions.get? s.currentQuestion with
    | none =>
        rw [handleQuizAnswer_outOfRange_eq m sid message _ s hs ha hn hq]
        simp
    | some q =>
        rw [handleQuizAnswer_valid_eq m sid message _ s q hs ha hn hq]
        dsimp only
        by_cases hfin : s.questions.length ≤ s.currentQuestion + 1
        · rw [if_pos hfin]
          rw [handleQuizComplete_eq_of_some _ sid _
                (getSession_setSession_self m sid _)]
          simp [invalidAnswerReply]
        · rw [if_neg hfin]
          cases hnq : s.questions.get? (s.currentQuestion + 1) with
          | none => simp
          | some nq => simp [invalidAnswerReply]
  · intro hval
    have hn : normalizeAnswer message = none := by
      unfold normalizeAnswer
      rw [if_neg (by rw [hval]; exact fun hc => nomatch hc)]
    exact handleQuizAnswer_invalid_eq m sid message s hs ha hn

/-- Witness for C5: the whitespace-padded lower-case letter "  b  " is
accepted as an answer on the fresh sample session. -/
theorem handleQuizAnswer_trim_validation_witness :
    normalizeAnswer "  b  " = some (jsToUpper (jsTrim "  b  ")) ∧
    (handleQuizAnswer "  b  " "s" [("s", sampleSession)]).1 ≠
      some (.ok invalidAnswerReply) :=
  (handleQuizAnswer_trim_validation [("s", sampleSession)] "s" "  b  "
      sampleSession (by decide) rfl).1 (by decide)

/-- Claim C6: the cancel path never errors. `handleQuizCancel` deletes the
session unconditionally when present, regardless of progress, and returns
the quiz-cancelled acknowledgement; the chat route's cancel branch returns
that acknowledgement when a session exists (sessions in reachable states
are always active) and the distinct nothing-to-cancel reply when none
exists, leaving the map unchanged in that case. -/
theorem cancel_never_errors
    (m : SessionMap) (sid message : String) (source : Option (List Question))
    (relay : RelayResult)
    (hmsg : jsToLower message = "cancel_quiz")
    (hact : ∀ s, getSession m sid = some s → s.active = true) :
    (handleQuizCancel sid m).1 = ⟨"Quiz cancelled.", none, "quiz.cancelled"⟩ ∧
    (handleQuizCancel sid m).2 = delSession m sid ∧
    ((getSession m sid).isSome = true →
       handleChat message sid source relay m =
         (.ok ⟨"Quiz cancelled.", none, "quiz.cancelled"⟩, delSession m sid)) ∧
    ((getSession m sid).isSome = false →
       handleChat message sid source relay m =
         (.ok ⟨"No active quiz to cancel.", none, "quiz.no_active"⟩, m)) ∧
    (⟨"Quiz cancelled.", none, "quiz.cancelled"⟩ : Reply) ≠
      ⟨"No active quiz to cancel.", none, "quiz.no_active"⟩ := by
  have hcond : (jsToLower message == "cancel_quiz") = true := by
    rw [hmsg]; decide
  refine ⟨?_, ?_, ?_, ?_, by decide⟩
  · unfold handleQuizCancel
    cases hgs : getSession m sid <;> rfl
  · unfold handleQuizCancel
    cases hgs : getSession m sid with
    | none => exact (delSession_of_getSession_none m sid hgs).symm
    | some d => rfl
  · intro hsome
    obtain ⟨d, hgs⟩ := Option.isSome_iff_exists.mp hsome
    have hactive : isQuizActive m sid = true :=
      (isQuizActive_iff m sid).mpr ⟨d, hgs, hact d hgs⟩
    unfold handleChat
    rw [hcond, if_pos rfl, hactive, if_pos rfl]
    unfold handleQuizCancel
    rw [hgs]
  · intro hnone
    have hgs : getSession m sid = none := by
      cases hg : getSession m sid with
      | none => rfl
      | some d => rw [hg] at hnone; cases hnone
    have hactive : isQuizActive m sid = false := by
      unfold isQuizActive; rw [hgs]
    unfold handleChat
    rw [hcond, if_pos rfl, hactive]
    rfl

/-- Witness for C6: cancelling with an active sample session deletes it
and returns the quiz-cancelled acknowledgement. -/
theorem cancel_never_errors_witness :
    (handleQuizCancel "s" [("s", sampleSession)]).1 =
      ⟨"Quiz cancelled.", none, "quiz.cancelled"⟩ ∧
    handleChat "cancel_quiz" "s" none ⟨"t", [], "i"⟩ [("s", sampleSession)] =
      (.ok ⟨"Quiz cancelled.", none, "quiz.cancelled"⟩,
       delSession [("s", sampleSession)] "s") :=
  have h := cancel_never_errors [("s", sampleSession)] "s" "cancel_quiz" none
    ⟨"t", [], "i"⟩ (by decide)
    (fun s hgs => by
      simp [getSession] at hgs
      subst hgs
      rfl)
  ⟨h.1, h.2.2.1 (by decide)⟩

/-- Claim C8: starting a quiz always yields a session with exactly 10
questions, index 0, score 0, no answers and the active flag set, for every
outcome of the question source; a failed or malformed source result (not an
array, or a wrong element count) is silently replaced by the hard-coded
fallback set of 10 questions, and the reply always carries the
quiz-started intent (the failure branch of `handleQuizStart` is dead). -/
theorem handleQuizStart_never_fails
    (sid : String) (source : Option (List Question)) (m : SessionMap) :
    getSession (handleQuizStart sid source m).2 sid =
      some ⟨true, generateQuizQuestions source, 0, 0, []⟩ ∧
    (generateQuizQuestions source).length = 10 ∧
    (handleQuizStart sid source m).1.intent = "quiz.start" ∧
    generateQuizQuestions none = getFallbackQuestions ∧
    (∀ qs : List Question, generateQuizQuestions (some qs) =
       if qs.length = 10 then qs else getFallbackQuestions) ∧
    getFallbackQuestions.length = 10 := by
  refine ⟨?_, generateQuizQuestions_length source, rfl, rfl, fun qs => rfl, rfl⟩
  unfold handleQuizStart
  exact getSession_setSession_self m sid _

/-- Claim C7 counterexample: the router compares
`message.toLowerCase()` against the cancel keyword WITHOUT trimming. The
message " cancel_quiz" (leading space) equals the keyword after trimming,
yet with no quiz active the router starts a quiz (the message contains the
keyword "quiz") instead of invoking cancel. -/
theorem chat_cancel_requires_exact_match_cex :
    jsToLower (jsTrim " cancel_quiz") = "cancel_quiz" ∧
    (handleChat " cancel_quiz" "sess" none ⟨"", [], ""⟩ []).1.toOption.map
        Reply.intent = some "quiz.start" ∧
    "quiz.start" ≠ "quiz.cancelled" ∧
    "quiz.start" ≠ "quiz.no_active" := by
  refine ⟨by decide, ?_, by decide, by decide⟩
  rfl

/-- Claim C7 amended: the dispatch order of the chat route, with the cancel
keyword matched exactly (case-insensitively, but WITHOUT trimming): a
message whose lower-casing equals "cancel_quiz" always takes the cancel
branch first; otherwise a message containing a quiz keyword starts a quiz
only when none is active; otherwise an active quiz intercepts every message
(including ones containing quiz keywords) and routes it to the answer
handler, which never declines; only when no branch applies is the message
delegated to the intent relay. -/
theorem chat_dispatch_order
    (m : SessionMap) (sid message : String) (source : Option (List Question))
    (relay : RelayResult) :
    (jsToLower message = "cancel_quiz" →
       handleChat message sid source relay m =
         (if isQuizActive m sid then
            (.ok (handleQuizCancel sid m).1, (handleQuizCancel sid m).2)
          else
            (.ok ⟨"No active quiz to cancel.", none, "quiz.no_active"⟩, m))) ∧
    (jsToLower message ≠ "cancel_quiz" → isQuizRequest message = true →
       isQuizActive m sid = false →
       handleChat message sid source relay m =
         (.ok (handleQuizStart sid source m).1,
          (handleQuizStart sid source m).2)) ∧
    (jsToLower message ≠ "cancel_quiz" → isQuizActive m sid = true →
       (handleQuizAnswer message sid m).1.isSome = true ∧
       handleChat message sid source relay m =
         ((handleQuizAnswer message sid m).1.getD (.ok (relayReply relay)),
          (handleQuizAnswer message sid m).2)) ∧
    (jsToLower message ≠ "cancel_quiz" → isQuizRequest message = false →
       isQuizActive m sid = false →
       handleChat message sid source relay m = (.ok (relayReply relay), m)) := by
  refine ⟨?_, ?_, ?_, ?_⟩
  · intro hmsg
    have hcond : (jsToLower message == "cancel_quiz") = true := by
      rw [hmsg]; decide
    unfold handleChat
    rw [hcond, if_pos rfl]
  · intro hmsg hreq hactive
    have hcond : (jsToLower message == "cancel_quiz") = false :=
      beq_eq_false_iff_ne.mpr hmsg
    unfold handleChat
    rw [hcond]
    simp [hreq, hactive]
  · intro hmsg hactive
    have hcond : (jsToLower message == "cancel_quiz") = false :=
      beq_eq_false_iff_ne.mpr hmsg
    obtain ⟨s, hgs, hsact⟩ := (isQuizActive_iff m sid).mp hactive
    have hsome : (handleQuizAnswer message sid m).1.isSome = true := by
      cases hna : normalizeAnswer message with
      | none => rw [handleQuizAnswer_invalid_eq m sid message s hgs hsact hna]; rfl
      | some L =>
          cases hq : s.questions.get? s.currentQuestion with
          | none =>
              rw [handleQuizAnswer_outOfRange_eq m sid message L s hgs hsact hna hq]
              rfl
          | some q =>
              rw [handleQuizAnswer_valid_eq m sid message L s q hgs hsact hna hq]
              dsimp only
              by_cases hfin : s.questions.length ≤ s.currentQuestion + 1
              · rw [if_pos hfin]; rfl
              · rw [if_neg hfin]
                cases s.questions.get? (s.currentQuestion + 1) <;> rfl
    refine ⟨hsome, ?_⟩
    obtain ⟨v, hv⟩ := Option.isSome_iff_exists.mp hsome
    unfold handleChat
    rw [hcond]
    simp only [Bool.false_eq_true, if_false, hactive, Bool.not_true,
      Bool.and_false, if_pos rfl]
    rcases hres : handleQuizAnswer message sid m with ⟨fst, snd⟩
    rw [hres] at hv
    dsimp only at hv
    subst hv
    rfl
  · intro hmsg hreq hactive
    have hcond : (jsToLower message == "cancel_quiz") = false :=
      beq_eq_false_iff_ne.mpr hmsg
    unfold handleChat
    rw [hcond]
    simp only [Bool.false_eq_true, if_false, hreq, hactive, Bool.false_and,
      Bool.and_true, Bool.not_false]

/-- Witness for the amended C7: the exact keyword with no active quiz takes
the cancel branch and yields the nothing-to-cancel reply. -/
theorem chat_dispatch_order_witness :
    handleChat "cancel_quiz" "s" none ⟨"t", [], "i"⟩ [] =
      (if isQuizActive [] "s" then
         (.ok (handleQuizCancel "s" []).1, (handleQuizCancel "s" []).2)
       else (.ok ⟨"No active quiz to cancel.", none, "quiz.no_active"⟩, [])) :=
  (chat_dispatch_order [] "s" "cancel_quiz" none ⟨"t", [], "i"⟩).1 (by decide)

/-- Claim C9 counterexample: a single fragment carrying both an inline
image and a card image yields the card URL — the LAST matching field wins
within a fragment, not the first as claimed; the spec-worded first-match
extraction disagrees with the code on this input. -/
theorem extract_image_first_match_cex :
    extractImageUrl [⟨some "inline.png", none, some "card.png"⟩] =
      some "card.png" ∧
    extractImageUrlSpecFirstMatch [⟨some "inline.png", none, some "card.png"⟩] =
      some "inline.png" ∧
    (some "card.png" : Option String) ≠ some "inline.png" := by
  refine ⟨rfl, rfl, by decide⟩

/-- Claim C9 amended: within each fragment the fields are checked in the
order inline image, structured payload `image_url`, card image, each
check overwriting the accumulator when its field is present — so the LAST
matching field wins for the fragment (card over payload over inline); a
fragment with no matching field leaves the result of the earlier fragments,
hence across fragments a later match overwrites an earlier one. -/
theorem extractImageUrl_last_match_wins
    (frags : List Fragment) (msg : Fragment) :
    extractImageUrl (frags ++ [msg]) =
      (match msg.cardImageUri with
       | some u => some u
       | none =>
           match msg.payloadImageUrl with
           | some u => some u
           | none =>
               match msg.imageUri with
               | some u => some u
               | none => extractImageUrl frags) := by
  unfold extractImageUrl
  rw [List.foldl_append]
  rcases msg with ⟨i, p, c⟩
  cases i <;> cases p <;> cases c <;> rfl

/-- Claim C10: `handleQuizComplete` has the unstated precondition that the
session exists: without it the unguarded read errors (the `Except.error`
branch of the total embedding), with it the operation always succeeds, and
its only caller — answering with a valid letter — invokes it while the
session still exists, so the answer path never surfaces that error. -/
theorem handleQuizComplete_requires_session
    (m : SessionMap) (sid message L : String) (s : QuizSession) (q : Question) :
    (getSession m sid = none →
       handleQuizComplete sid m =
         (.error "TypeError: cannot read properties of undefined", m)) ∧
    (getSession m sid = some s →
       ∃ r : Reply, (handleQuizComplete sid m).1 = .ok r) ∧
    (getSession m sid = some s → s.active = true →
       normalizeAnswer message = some L →
       s.questions.get? s.currentQuestion = some q →
       ∃ r : Reply, (handleQuizAnswer message sid m).1 = some (.ok r)) := by
  refine ⟨?_, ?_, ?_⟩
  · intro hgs
    exact handleQuizComplete_eq_of_none m sid hgs
  · intro hgs
    rw [handleQuizComplete_eq_of_some m sid s hgs]
    exact ⟨_, rfl⟩
  · intro hgs hsact hna hq
    rw [handleQuizAnswer_valid_eq m sid message L s q hgs hsact hna hq]
    dsimp only
    by_cases hfin : s.questions.length ≤ s.currentQuestion + 1
    · rw [if_pos hfin]
      rw [handleQuizComplete_eq_of_some _ sid _
            (getSession_setSession_self m sid _)]
      exact ⟨_, rfl⟩
    · rw [if_neg hfin]
      have hlt : s.currentQuestion + 1 < s.questions.length := by omega
      rw [List.get?_eq_get hlt]
      exact ⟨_, rfl⟩

/-- Witness for C10: completing a missing session errors; answering the
fresh sample session (where its only caller would run) succeeds. -/
theorem handleQuizComplete_requires_session_witness :
    handleQuizComplete "s" [] =
      (.error "TypeError: cannot read properties of undefined", []) ∧
    (∃ r : Reply, (handleQuizAnswer "a" "s" [("s", sampleSession)]).1 =
        some (.ok r)) :=
  ⟨(handleQuizComplete_requires_session [] "s" "a" "A" sampleSession
      sampleQuestion).1 rfl,
   (handleQuizComplete_requires_session [("s", sampleSession)] "s" "a" "A"
      sampleSession sampleQuestion).2.2 (by decide) rfl (by decide) (by decide)⟩

end Kakapo
